import Mathlib

/-
Verification of the FloorPlan360 interactive scene/selection/transform engine
(src/floorplan.py) against its natural-language specification.

The Python source works on IEEE floats; following the spec's own convention
("exactly, in real/rational arithmetic"), numbers are modelled as real numbers.
Python dictionaries holding item data are modelled as a structure with one
field per key used by the engine; `kind` stays a string because loaded
documents can carry unknown kinds.
-/

noncomputable section

open Classical

namespace FloorPlan

/-- World/canvas points are real-valued 2D points, as in the source. -/
abbrev Point := ℝ × ℝ

/-- GRID_SIZE_PX = 32 (pixels per world unit at zoom 1). -/
def GRID_SIZE_PX : ℝ := 32

/-- HIT_TOL = 8 (pixel tolerance of hit testing). -/
def HIT_TOL : ℝ := 8

/-- TEXT_COLOR default color string. -/
def TEXT_COLOR : String := "#111111"

/-- clamp(v, lo, hi) = max(lo, min(hi, v)) over the reals. -/
def clamp (v lo hi : ℝ) : ℝ := max lo (min hi v)

/-- Python's clamp applied to integers (same definition, integer type). -/
def clampInt (v lo hi : ℤ) : ℤ := max lo (min hi v)

/-- math.hypot. -/
def hypot (x y : ℝ) : ℝ := Real.sqrt (x ^ 2 + y ^ 2)

/-- Python's round() for floats: round half to even (banker's rounding). -/
def pyRound (x : ℝ) : ℤ :=
  if Int.fract x < 1 / 2 then ⌊x⌋
  else if 1 / 2 < Int.fract x then ⌊x⌋ + 1
  else if Even ⌊x⌋ then ⌊x⌋ else ⌊x⌋ + 1

/-- Python's int() on a float: truncation toward zero. -/
def pyInt (x : ℝ) : ℤ := if 0 ≤ x then ⌊x⌋ else ⌈x⌉

/-- Python's % for a real left operand and positive real modulus:
result has the sign of the modulus, so it lies in [0, m) for m > 0. -/
def pyMod (x m : ℝ) : ℝ := x - m * ⌊x / m⌋

/-- math.atan2 y x, realized as the complex argument of x + y·i
(both use the (-π, π] convention and atan2 0 0 = 0). -/
def atan2 (y x : ℝ) : ℝ := Complex.arg ⟨x, y⟩

/-- math.degrees. -/
def degrees (r : ℝ) : ℝ := r * 180 / Real.pi

/-- math.radians. -/
def radians (d : ℝ) : ℝ := d * Real.pi / 180

/-- screen_angle(cx, cy, px, py) = degrees(atan2(cy - py, px - cx)):
canvas y grows downward, so the y difference is inverted. -/
def screen_angle (cx cy px py : ℝ) : ℝ := degrees (atan2 (cy - py) (px - cx))

/-- The divisor used by seg_normal: `L = math.hypot(nx, ny) or 1.0`,
i.e. the length, replaced by 1.0 when it equals 0.0. -/
def seg_normal_div (x1 y1 x2 y2 : ℝ) : ℝ :=
  if hypot (x2 - x1) (y2 - y1) = 0 then 1 else hypot (x2 - x1) (y2 - y1)

/-- seg_normal(x1, y1, x2, y2) = (-ny / L, nx / L) with (nx, ny) = b - a. -/
def seg_normal (x1 y1 x2 y2 : ℝ) : Point :=
  (-(y2 - y1) / seg_normal_div x1 y1 x2 y2, (x2 - x1) / seg_normal_div x1 y1 x2 y2)

/-- dist_point_to_segment from the source: distance to the endpoint when the
segment is degenerate, otherwise distance to the clamped projection. -/
def dist_point_to_segment (px py x1 y1 x2 y2 : ℝ) : ℝ :=
  let dx := x2 - x1
  let dy := y2 - y1
  if dx = 0 ∧ dy = 0 then hypot (px - x1) (py - y1)
  else
    let t := max 0 (min 1 (((px - x1) * dx + (py - y1) * dy) / (dx * dx + dy * dy)))
    hypot (px - (x1 + t * dx)) (py - (y1 + t * dy))

/-- grid_px(zoom) = GRID_SIZE_PX * zoom. -/
def grid_px (zoom : ℝ) : ℝ := GRID_SIZE_PX * zoom

/-- world_to_canvas: origin + p * grid_px. -/
def world_to_canvas (zoom : ℝ) (origin : Point) (x y : ℝ) : Point :=
  (origin.1 + x * grid_px zoom, origin.2 + y * grid_px zoom)

/-- canvas_to_world: (p - origin) / grid_px. -/
def canvas_to_world (zoom : ℝ) (origin : Point) (px py : ℝ) : Point :=
  ((px - origin.1) / grid_px zoom, (py - origin.2) / grid_px zoom)

/-- snap_world: rounds each coordinate to the nearest grid unit when snapping
is enabled, identity otherwise. -/
def snap_world (snapEnabled : Bool) (wx wy : ℝ) : Point :=
  if snapEnabled then ((pyRound wx : ℝ), (pyRound wy : ℝ)) else (wx, wy)

/-- A scene item. Python stores a `kind` string and a `data` dictionary;
here the dictionary keys used by the engine become fields (fields that a
given kind does not use keep their defaults and are never read for it).
The transient `selected` flag and the cached canvas bounding box of rendered
text (`_bbox_canvas`, absent until first render) are included because the
engine reads them. -/
structure Item where
  kind : String
  a : Point := (0, 0)
  b : Point := (0, 0)
  p : Point := (0, 0)
  text : String := ""
  angle : ℝ := 0
  size : ℤ := 18
  color : String := TEXT_COLOR
  measure : Bool := false
  show_area : Bool := true
  selected : Bool := false
  bboxCanvas : Option (ℝ × ℝ × ℝ × ℝ) := none

/-- Item(kind, data a b) for the linear tools wall/door/window. -/
def mk_seg_item (kind : String) (a b : Point) : Item :=
  { kind := kind, a := a, b := b }

/-- Item("room", data a b). -/
def mk_room_item (a b : Point) : Item :=
  { kind := "room", a := a, b := b }

/-- Text item created by the text tool: default angle 0, size 18,
default color. -/
def create_text_item (wp : Point) (txt : String) : Item :=
  { kind := "text", p := wp, text := txt, angle := 0, size := 18,
    color := TEXT_COLOR }

/-- Second click of a linear tool (wall/door/window): the item is appended
only when start and end differ (`if a != b: self.items.append(...)`). -/
def finalize_linear (tool : String) (items : List Item) (a b : Point) :
    List Item :=
  if a ≠ b then items ++ [mk_seg_item tool a b] else items

/-- Pointer-up of the room tool: a Room is appended only when the two
corners differ as points (`if a != b: self.items.append(...)`). -/
def finalize_room (items : List Item) (a b : Point) : List Item :=
  if a ≠ b then items ++ [mk_room_item a b] else items

/-- Width of the rectangle a room item stores, after normalization. -/
def room_width (it : Item) : ℝ := max it.a.1 it.b.1 - min it.a.1 it.b.1

/-- Height of the rectangle a room item stores, after normalization. -/
def room_height (it : Item) : ℝ := max it.a.2 it.b.2 - min it.a.2 it.b.2

/-- _move_item: kind-specific translation; kinds outside the five known
ones are not translated at all. -/
def move_item (it : Item) (dx dy : ℝ) : Item :=
  if it.kind = "wall" ∨ it.kind = "door" ∨ it.kind = "window" then
    { it with a := (it.a.1 + dx, it.a.2 + dy), b := (it.b.1 + dx, it.b.2 + dy) }
  else if it.kind = "room" then
    { it with a := (it.a.1 + dx, it.a.2 + dy), b := (it.b.1 + dx, it.b.2 + dy) }
  else if it.kind = "text" then
    { it with p := (it.p.1 + dx, it.p.2 + dy) }
  else it

/-- A text item of a persisted document: the geometry/content keys are
always read, while angle/size/color may be absent (load_json applies
setdefault to exactly these three). -/
structure TextDoc where
  p : Point
  text : String
  angleOpt : Option ℝ
  sizeOpt : Option ℤ
  colorOpt : Option String

/-- load_json's reconstruction of one text item: Item.from_json keeps the
stored data, then setdefault fills angle := 0.0, size := 18, color :=
TEXT_COLOR only when the key is absent. Values that are present are kept
verbatim, with no clamping or angle reduction. -/
def load_text_item (d : TextDoc) : Item :=
  { kind := "text", p := d.p, text := d.text,
    angle := d.angleOpt.getD 0, size := d.sizeOpt.getD 18,
    color := d.colorOpt.getD TEXT_COLOR }

/-- Item.from_json for an arbitrary (possibly unknown) kind keeps the kind
string untouched, so unknown kinds can enter the scene via load_json. -/
def load_item_kind (kind : String) (it : Item) : Item :=
  { it with kind := kind }

/-- Size invariant of the data model: size ∈ [8, 512]. -/
def size_ok (s : ℤ) : Prop := 8 ≤ s ∧ s ≤ 512

/-- Angle invariant of the data model: angle ∈ [0, 360). -/
def angle_ok (a : ℝ) : Prop := 0 ≤ a ∧ a < 360

/-- C8: screenToWorld(worldToScreen(p)) = p for every world point p, every
zoom in [0.4, 2.5] and every origin, exactly in real arithmetic. -/
theorem round_trip_world_canvas (zoom : ℝ) (origin : Point) (p : Point)
    (hlo : 0.4 ≤ zoom) (hhi : zoom ≤ 2.5) :
    canvas_to_world zoom origin (world_to_canvas zoom origin p.1 p.2).1
      (world_to_canvas zoom origin p.1 p.2).2 = p := by
  have hz : zoom ≠ 0 := by nlinarith
  have hg : grid_px zoom ≠ 0 := by
    simp only [grid_px, GRID_SIZE_PX]
    intro h
    rcases mul_eq_zero.mp h with h32 | h0
    · norm_num at h32
    · exact hz h0
  simp only [canvas_to_world, world_to_canvas]
  refine Prod.ext ?_ ?_ <;> field_simp

/-- Witness for C8 at zoom 1, origin (80, 80), p = (3, 4). -/
theorem round_trip_world_canvas_witness :
    canvas_to_world 1 (80, 80) (world_to_canvas 1 (80, 80) (3 : ℝ) (4 : ℝ)).1
      (world_to_canvas 1 (80, 80) (3 : ℝ) (4 : ℝ)).2 = ((3 : ℝ), (4 : ℝ)) :=
  round_trip_world_canvas 1 (80, 80) (3, 4) (by norm_num) (by norm_num)

/-- Session state stored by _begin_segment_rotate: the segment's midpoint,
its length, and the cursor's screen angle about the midpoint at grab time. -/
structure SegRotateState where
  center : Point
  len : ℝ
  start_cursor : ℝ

/-- _begin_segment_rotate(it, px, py). -/
def begin_segment_rotate (it : Item) (zoom : ℝ) (origin : Point)
    (px py : ℝ) : SegRotateState :=
  let c : Point := ((it.a.1 + it.b.1) / 2, (it.a.2 + it.b.2) / 2)
  let cc := world_to_canvas zoom origin c.1 c.2
  { center := c, len := hypot (it.b.1 - it.a.1) (it.b.2 - it.a.2),
    start_cursor := screen_angle cc.1 cc.2 px py }

/-- _update_segment_rotate(px, py): take L = max(1e-6, stored length),
θ = radians(current cursor screen angle − start cursor angle), and set the
endpoints to center ∓ (L/2)·(cos θ, sin θ); both endpoints are re-snapped
afterwards when snapping is enabled. -/
def update_segment_rotate (t : SegRotateState) (it : Item) (zoom : ℝ)
    (origin : Point) (px py : ℝ) (snapEnabled : Bool) : Item :=
  let L := max 1e-6 t.len
  let cc := world_to_canvas zoom origin t.center.1 t.center.2
  let ang := screen_angle cc.1 cc.2 px py
  let θ := radians (ang - t.start_cursor)
  let dx := (L / 2) * Real.cos θ
  let dy := (L / 2) * Real.sin θ
  let it1 := { it with a := (t.center.1 - dx, t.center.2 - dy),
                       b := (t.center.1 + dx, t.center.2 + dy) }
  if snapEnabled then
    { it1 with a := snap_world true it1.a.1 it1.a.2,
               b := snap_world true it1.b.1 it1.b.2 }
  else it1

/-- Session state stored by _begin_text_scale: handle tag, proportional
modifier, the text's canvas bounding box at grab time, and initial size. -/
structure TextScaleState where
  handle : String
  keep_ratio : Bool
  start_bbox : ℝ × ℝ × ℝ × ℝ
  start_size : ℤ

/-- _begin_text_scale(it, px, py, handle_tag, keep_ratio); `bb` is the
cached canvas bounding box `it._bbox_canvas`, present whenever a handle was
hit. -/
def begin_text_scale (it : Item) (handle_tag : String) (keep_ratio : Bool)
    (bb : ℝ × ℝ × ℝ × ℝ) : TextScaleState :=
  { handle := handle_tag, keep_ratio := keep_ratio, start_bbox := bb,
    start_size := it.size }

/-- The ratio _update_text_scale computes before clamping: per-axis ratios
dx = |px − cx| / max(1, x1 − cx) and dy = |py − cy| / max(1, y1 − cy);
n/s handles use dy, e/w handles use dx, every other tag uses
max(dx, dy) when the proportional modifier is held and (dx + dy)/2
otherwise. -/
def text_scale_ratio (t : TextScaleState) (px py : ℝ) : ℝ :=
  let x0 := t.start_bbox.1
  let y0 := t.start_bbox.2.1
  let x1 := t.start_bbox.2.2.1
  let y1 := t.start_bbox.2.2.2
  let cx := (x0 + x1) / 2
  let cy := (y0 + y1) / 2
  let dx := |px - cx| / max 1 (x1 - cx)
  let dy := |py - cy| / max 1 (y1 - cy)
  if t.handle = "n" ∨ t.handle = "s" then dy
  else if t.handle = "e" ∨ t.handle = "w" then dx
  else if t.keep_ratio then max dx dy else (dx + dy) / 2

/-- _update_text_scale(px, py): the ratio is clamped to [0.2, 8.0] and the
new size is clamp(int(start_size * scale), 8, 512); the angle and every
other field are untouched. (The source skips the assignment when the size
is unchanged, which yields the same resulting state.) -/
def update_text_scale (t : TextScaleState) (it : Item) (px py : ℝ) : Item :=
  let scale := clamp (text_scale_ratio t px py) 0.2 8.0
  { it with size := clampInt (pyInt ((t.start_size : ℝ) * scale)) 8 512 }

/-- Session state stored by _begin_text_rotate: canvas center of the text
anchor, cursor angle at grab time, and the initial angle. -/
structure TextRotateState where
  center : Point
  start_cursor : ℝ
  start_angle : ℝ

/-- _begin_text_rotate(it, px, py). -/
def begin_text_rotate (it : Item) (zoom : ℝ) (origin : Point)
    (px py : ℝ) : TextRotateState :=
  let c := world_to_canvas zoom origin it.p.1 it.p.2
  { center := c, start_cursor := screen_angle c.1 c.2 px py,
    start_angle := it.angle }

/-- _update_text_rotate(px, py): angle := (start_angle + (current cursor
angle − start cursor angle)) % 360.0. -/
def update_text_rotate (t : TextRotateState) (it : Item) (px py : ℝ) : Item :=
  let ang := screen_angle t.center.1 t.center.2 px py
  { it with angle := pyMod (t.start_angle + (ang - t.start_cursor)) 360 }

/-- The world point _continue_transform works from: canvas_to_world of the
cursor, snapped when snapping is enabled (the outer `if snap_enabled` in
the source is absorbed by snap_world checking the same flag). -/
def current_world_point (zoom : ℝ) (origin : Point) (px py : ℝ)
    (snapEnabled : Bool) : Point :=
  let w0 := canvas_to_world zoom origin px py
  snap_world snapEnabled w0.1 w0.2

/-- The "move_any" branch of _continue_transform: translate the single item
by (current world point − stored anchor) and replace the anchor by the
current world point. Returns (translated item, new anchor). -/
def continue_move_any (anchor : Point) (it : Item) (zoom : ℝ)
    (origin : Point) (px py : ℝ) (snapEnabled : Bool) : Item × Point :=
  let w := current_world_point zoom origin px py snapEnabled
  (move_item it (w.1 - anchor.1) (w.2 - anchor.2), w)

/-- The loop body of the "move_group" branch: every item whose index is in
the multi-selection is translated by (dx, dy); the others are untouched.
(`selected_items` holds distinct references into `items`, modelled here as
a list of distinct indices.) -/
def apply_group_move (dx dy : ℝ) (selIdx : List ℕ) :
    ℕ → List Item → List Item
  | _, [] => []
  | i, jt :: rest =>
      (if i ∈ selIdx then move_item jt dx dy else jt) ::
        apply_group_move dx dy selIdx (i + 1) rest

/-- The "move_group" branch of _continue_transform: compute the current
world point, translate every selected item by its difference from the
anchor, and advance the anchor. -/
def continue_move_group (anchor : Point) (selIdx : List ℕ)
    (items : List Item) (zoom : ℝ) (origin : Point) (px py : ℝ)
    (snapEnabled : Bool) : List Item × Point :=
  let w := current_world_point zoom origin px py snapEnabled
  (apply_group_move (w.1 - anchor.1) (w.2 - anchor.2) selIdx 0 items, w)

/-- Containment of a point in a cached canvas bounding box
(x0 ≤ px ≤ x1 and y0 ≤ py ≤ y1). -/
def bbox_contains (bb : ℝ × ℝ × ℝ × ℝ) (px py : ℝ) : Prop :=
  bb.1 ≤ px ∧ px ≤ bb.2.2.1 ∧ bb.2.1 ≤ py ∧ py ≤ bb.2.2.2

/-- A text item whose cached canvas bounding box contains the point: the
condition under which _hit_test returns immediately. -/
def is_text_hit (it : Item) (px py : ℝ) : Prop :=
  it.kind = "text" ∧ ∃ bb, it.bboxCanvas = some bb ∧ bbox_contains bb px py

/-- The scan loop of _hit_test, carrying the running best candidate and its
distance. Wall/door/window update the best candidate when within HIT_TOL
and closer than the running minimum; a room updates it when the point lies
in its rectangle expanded by HIT_TOL, scored by distance to the nearest
edge; a text item whose cached bounding box contains the point returns
immediately; every other item is skipped. -/
def hit_test_go (zoom : ℝ) (origin : Point) (px py : ℝ) :
    Option Item → ℝ → List Item → Option Item
  | best, _, [] => best
  | best, bestd, it :: rest =>
    if it.kind = "wall" ∨ it.kind = "door" ∨ it.kind = "window" then
      let p1 := world_to_canvas zoom origin it.a.1 it.a.2
      let p2 := world_to_canvas zoom origin it.b.1 it.b.2
      let d := dist_point_to_segment px py p1.1 p1.2 p2.1 p2.2
      if d ≤ HIT_TOL ∧ d < bestd then hit_test_go zoom origin px py (some it) d rest
      else hit_test_go zoom origin px py best bestd rest
    else if it.kind = "room" then
      let c0 := world_to_canvas zoom origin (min it.a.1 it.b.1) (min it.a.2 it.b.2)
      let c1 := world_to_canvas zoom origin (max it.a.1 it.b.1) (max it.a.2 it.b.2)
      if c0.1 - HIT_TOL ≤ px ∧ px ≤ c1.1 + HIT_TOL ∧
         c0.2 - HIT_TOL ≤ py ∧ py ≤ c1.2 + HIT_TOL then
        let d := min (min |px - c0.1| |px - c1.1|) (min |py - c0.2| |py - c1.2|)
        if d < bestd then hit_test_go zoom origin px py (some it) d rest
        else hit_test_go zoom origin px py best bestd rest
      else hit_test_go zoom origin px py best bestd rest
    else if it.kind = "text" then
      match it.bboxCanvas with
      | some bb =>
          if bbox_contains bb px py then some it
          else hit_test_go zoom origin px py best bestd rest
      | none => hit_test_go zoom origin px py best bestd rest
    else hit_test_go zoom origin px py best bestd rest

/-- _hit_test(px, py): scan with no candidate and running distance 1e9. -/
def hit_test (zoom : ℝ) (origin : Point) (px py : ℝ)
    (items : List Item) : Option Item :=
  hit_test_go zoom origin px py none 1e9 items

/-- The first text item (in scan order) whose cached canvas bounding box
contains the point, if any. -/
def firstTextHit (px py : ℝ) : List Item → Option Item
  | [] => none
  | it :: rest =>
      if is_text_hit it px py then some it else firstTextHit px py rest

/-- Removal state touched by the delete operations: the scene item list,
the single selection, and the multi-selection. Items are compared by
reference in Python (Item defines no __eq__), so the reference type is
abstract with decidable (identity) equality. -/
def SceneSel (α : Type) : Type := List α × Option α × List α

/-- _delete_item(it): inside the `if it in self.items` guard, the item is
removed from the multi-selection (first occurrence, no-op if absent), the
single selection is dropped when it refers to the item, and the item is
removed from the scene. -/
def delete_item {α : Type} [DecidableEq α] (items : List α) (sel : Option α)
    (multi : List α) (it : α) : SceneSel α :=
  if it ∈ items then
    (items.erase it, if sel = some it then none else sel, multi.erase it)
  else (items, sel, multi)

/-- The eraser branch of _on_left_down after a successful hit-test (the hit
item is known to be in the scene): drop the single selection when it is the
item, remove it from the multi-selection, remove it from the scene. -/
def eraser_delete {α : Type} [DecidableEq α] (items : List α)
    (sel : Option α) (multi : List α) (it : α) : SceneSel α :=
  (items.erase it, if sel = some it then none else sel, multi.erase it)

/-- delete_selection(): with a nonempty multi-selection, every selected item
is removed from the scene (each removal guarded by membership, which
List.erase already makes a no-op) and both selection views are cleared;
otherwise a lone single selection is removed and dropped. -/
def delete_selection {α : Type} [DecidableEq α] (items : List α)
    (sel : Option α) (multi : List α) : SceneSel α :=
  if multi ≠ [] then (multi.foldl (fun acc x => acc.erase x) items, none, [])
  else
    match sel with
    | some s => (if s ∈ items then items.erase s else items, none, multi)
    | none => (items, sel, multi)

/-- Helper: writing back the element a list already holds changes nothing. -/
lemma list_set_get_self {α : Type} (l : List α) (i : ℕ) (h : i < l.length) :
    l.set i (l.get ⟨i, h⟩) = l := by
  induction l generalizing i with
  | nil => simp at h
  | cons x xs ih =>
    cases i with
    | zero => simp
    | succ j =>
      have hj : j < xs.length := by simpa using h
      simpa using ih j hj

/-- Helper: clampInt keeps its value in [8, 512]. -/
lemma clampInt_bounds (v : ℤ) : 8 ≤ clampInt v 8 512 ∧ clampInt v 8 512 ≤ 512 := by
  unfold clampInt
  constructor
  · exact le_max_left _ _
  · exact max_le (by norm_num) (min_le_left _ _)

/-- Helper: Python float % with a positive modulus lands in [0, m). -/
lemma pyMod_bounds (x : ℝ) {m : ℝ} (hm : 0 < m) :
    0 ≤ pyMod x m ∧ pyMod x m < m := by
  have hm' : m ≠ 0 := ne_of_gt hm
  have hfract : pyMod x m = m * Int.fract (x / m) := by
    unfold pyMod Int.fract
    field_simp
  constructor
  · rw [hfract]
    exact mul_nonneg (le_of_lt hm) (Int.fract_nonneg _)
  · rw [hfract]
    calc m * Int.fract (x / m) < m * 1 :=
          (mul_lt_mul_left hm).mpr (Int.fract_lt_one _)
      _ = m := mul_one m

/-- Helper: the norm of (r·cos θ, r·sin θ) is |r|. -/
lemma hypot_rcos_rsin (r θ : ℝ) :
    hypot (r * Real.cos θ) (r * Real.sin θ) = |r| := by
  unfold hypot
  rw [show (r * Real.cos θ) ^ 2 + (r * Real.sin θ) ^ 2
        = r ^ 2 * (Real.cos θ ^ 2 + Real.sin θ ^ 2) by ring,
      Real.cos_sq_add_sin_sq, mul_one, Real.sqrt_sq_eq_abs]

/-- Helper: hypot 0 0 = 0. -/
lemma hypot_zero_zero : hypot 0 0 = 0 := by
  unfold hypot
  norm_num

/-- C10: for an item whose kind is none of wall, door, window, room or text
(such items can enter the scene from a loaded document with an unknown
kind), _move_item is a no-op, and writing the result back into the scene
leaves the whole scene unchanged. -/
theorem move_item_unknown_kind_noop (it : Item) (dx dy : ℝ)
    (h1 : it.kind ≠ "wall") (h2 : it.kind ≠ "door") (h3 : it.kind ≠ "window")
    (h4 : it.kind ≠ "room") (h5 : it.kind ≠ "text") :
    move_item it dx dy = it ∧
    ∀ (items : List Item) (i : ℕ) (hi : i < items.length),
      items.get ⟨i, hi⟩ = it → items.set i (move_item it dx dy) = items := by
  have hmv : move_item it dx dy = it := by
    simp [move_item, h1, h2, h3, h4, h5]
  refine ⟨hmv, ?_⟩
  intro items i hi hget
  rw [hmv, ← hget, list_set_get_self]

/-- Witness for C10: a loaded item of kind "stairs" is not moved. -/
theorem move_item_unknown_kind_noop_witness :
    move_item (load_item_kind "stairs" (create_text_item (1, 2) "x")) 3 4 =
      load_item_kind "stairs" (create_text_item (1, 2) "x") :=
  (move_item_unknown_kind_noop (load_item_kind "stairs" (create_text_item (1, 2) "x"))
    3 4 (by decide) (by decide) (by decide) (by decide) (by decide)).1

/-- C7: each removal path (context-menu delete, eraser, delete-selection)
leaves the removed item absent from the multi-selection and not referenced
by the single selection; removing one item of a multi-selection shrinks it
by exactly one. -/
theorem removal_purges_selection {α : Type} [DecidableEq α]
    (items : List α) (sel : Option α) (multi : List α) (it : α)
    (hnd : multi.Nodup) :
    (it ∈ items →
      it ∉ (delete_item items sel multi it).2.2 ∧
      (delete_item items sel multi it).2.1 ≠ some it ∧
      (it ∈ multi → (delete_item items sel multi it).2.2.length + 1 = multi.length)) ∧
    (it ∉ (eraser_delete items sel multi it).2.2 ∧
      (eraser_delete items sel multi it).2.1 ≠ some it) ∧
    (multi ≠ [] → (delete_selection items sel multi).2.2 = [] ∧
      (delete_selection items sel multi).2.1 = none) := by
  have herase : it ∉ multi.erase it := by
    intro hmem
    exact ((List.Nodup.mem_erase_iff hnd).mp hmem).1 rfl
  have hsel : (if sel = some it then none else sel) ≠ some it := by
    by_cases hs : sel = some it <;> simp [hs]
  have hlen : it ∈ multi → (multi.erase it).length + 1 = multi.length := by
    intro hmem
    have h1 : (multi.erase it).length = multi.length - 1 :=
      List.length_erase_of_mem hmem
    have h2 : 0 < multi.length := List.length_pos.mpr (by
      intro hnil; rw [hnil] at hmem; simp at hmem)
    omega
  refine ⟨?_, ⟨?_, ?_⟩, ?_⟩
  · intro hin
    unfold delete_item
    rw [if_pos hin]
    exact ⟨herase, hsel, hlen⟩
  · exact herase
  · exact hsel
  · intro hne
    unfold delete_selection
    rw [if_pos hne]
    exact ⟨rfl, rfl⟩

/-- Witness for C7: deleting item 2 out of a 3-item multi-selection leaves
a 2-item selection that no longer contains it, and clears the single
selection reference. -/
theorem removal_purges_selection_witness :
    (2 : ℕ) ∉ (delete_item [1, 2, 3] (some 2) [1, 2, 3] 2).2.2 ∧
    (delete_item [1, 2, 3] (some 2) [1, 2, 3] 2).2.1 ≠ some 2 ∧
    (delete_item [1, 2, 3] (some 2) [1, 2, 3] 2).2.2.length + 1 = 3 := by
  have h := (removal_purges_selection [1, 2, 3] (some 2) [1, 2, 3] 2
    (by decide)).1 (by decide)
  exact ⟨h.1, h.2.1, h.2.2 (by decide)⟩

/-- C2 counterexample: the room tool's pointer-up check is `a != b`, so a
drag from (0,0) to (0,3) appends a Room whose rectangle has zero width
(zero area) — the claim that finalized Rooms always have nonzero width and
height is false. -/
theorem finalize_room_zero_width_appended :
    mk_room_item (0, 0) (0, 3) ∈ finalize_room [] (0, 0) (0, 3) ∧
    room_width (mk_room_item (0, 0) (0, 3)) = 0 ∧
    room_height (mk_room_item (0, 0) (0, 3)) = 3 := by
  have hne : ((0 : ℝ), (0 : ℝ)) ≠ ((0 : ℝ), (3 : ℝ)) := by
    intro h
    have := congrArg Prod.snd h
    norm_num at this
  refine ⟨?_, ?_, ?_⟩
  · unfold finalize_room
    rw [if_pos hne]
    simp
  · unfold room_width mk_room_item
    norm_num
  · unfold room_height mk_room_item
    norm_num

/-- C2 (amended): a finalize action of a linear tool or of the room tool
never appends an item whose two stored points coincide; linear items thus
have distinct endpoints, while a Room's corners differ as points but may
still agree on one axis (zero width or height). -/
theorem finalize_no_coincident_points (tool : String) (items : List Item)
    (a b : Point) (it : Item) :
    (it ∈ finalize_linear tool items a b → it ∉ items → it.a ≠ it.b) ∧
    (it ∈ finalize_room items a b → it ∉ items → it.a ≠ it.b) := by
  constructor
  · intro hmem hnew
    unfold finalize_linear at hmem
    by_cases hab : a = b
    · rw [if_neg (by simpa using hab)] at hmem
      exact absurd hmem hnew
    · rw [if_pos hab] at hmem
      rcases List.mem_append.mp hmem with h | h
      · exact absurd h hnew
      · have : it = mk_seg_item tool a b := by simpa using h
        rw [this]
        simpa [mk_seg_item] using hab
  · intro hmem hnew
    unfold finalize_room at hmem
    by_cases hab : a = b
    · rw [if_neg (by simpa using hab)] at hmem
      exact absurd hmem hnew
    · rw [if_pos hab] at hmem
      rcases List.mem_append.mp hmem with h | h
      · exact absurd h hnew
      · have : it = mk_room_item a b := by simpa using h
        rw [this]
        simpa [mk_room_item] using hab

/-- Witness for C2: the wall appended by a finalize from (0,0) to (1,0) has
distinct endpoints. -/
theorem finalize_no_coincident_points_witness :
    (mk_seg_item "wall" (0, 0) (1, 0)).a ≠ (mk_seg_item "wall" (0, 0) (1, 0)).b := by
  have hne : ((0 : ℝ), (0 : ℝ)) ≠ ((1 : ℝ), (0 : ℝ)) := by
    intro h
    have := congrArg Prod.fst h
    norm_num at this
  refine (finalize_no_coincident_points "wall" [] (0, 0) (1, 0)
    (mk_seg_item "wall" (0, 0) (1, 0))).1 ?_ (by simp)
  unfold finalize_linear
  rw [if_pos hne]
  simp

/-- C4 counterexample: load_json only setdefaults missing text fields; a
persisted document carrying angle 400 and size 1000 reconstructs a Text
item violating both the size bound [8,512] and the angle bound [0,360). -/
theorem loaded_text_out_of_range :
    ¬ (size_ok (load_text_item ⟨(0, 0), "x", some 400, some 1000, none⟩).size ∧
       angle_ok (load_text_item ⟨(0, 0), "x", some 400, some 1000, none⟩).angle) := by
  intro h
  have hs := h.1.2
  simp only [load_text_item, Option.getD_some] at hs
  norm_num at hs

/-- C4 (amended): creation by the text tool establishes size ∈ [8,512] and
angle ∈ [0,360); a ScaleText update always forces the size into [8,512] and
leaves the angle untouched; a RotateText update always reduces the angle
into [0,360) and leaves the size untouched; reconstruction from a persisted
document only fills in missing fields (angle 0, size 18, default color) and
keeps present values verbatim, so loaded items satisfy the bounds only when
the document's values already do. -/
theorem text_invariants_per_operation (wp : Point) (txt : String)
    (ts : TextScaleState) (tr : TextRotateState) (it : Item) (px py : ℝ)
    (d : TextDoc) :
    (angle_ok (create_text_item wp txt).angle ∧
      size_ok (create_text_item wp txt).size) ∧
    (size_ok (update_text_scale ts it px py).size ∧
      (update_text_scale ts it px py).angle = it.angle) ∧
    (angle_ok (update_text_rotate tr it px py).angle ∧
      (update_text_rotate tr it px py).size = it.size) ∧
    ((load_text_item d).angle = d.angleOpt.getD 0 ∧
      (load_text_item d).size = d.sizeOpt.getD 18 ∧
      (size_ok (d.sizeOpt.getD 18) → angle_ok (d.angleOpt.getD 0) →
        size_ok (load_text_item d).size ∧ angle_ok (load_text_item d).angle)) := by
  refine ⟨⟨?_, ?_⟩, ⟨?_, rfl⟩, ⟨?_, rfl⟩, rfl, rfl, ?_⟩
  · unfold create_text_item angle_ok
    norm_num
  · unfold create_text_item size_ok
    norm_num
  · unfold update_text_scale size_ok
    exact clampInt_bounds _
  · unfold update_text_rotate angle_ok
    exact pyMod_bounds _ (by norm_num)
  · intro hs ha
    exact ⟨hs, ha⟩

/-- Witness for C4: a freshly created label satisfies both bounds, and a
document whose text item carries angle 10 and size 100 (both in range)
loads into an item that still satisfies them. -/
theorem text_invariants_per_operation_witness :
    (angle_ok (create_text_item (0, 0) "hi").angle ∧
      size_ok (create_text_item (0, 0) "hi").size) ∧
    (size_ok (load_text_item ⟨(0, 0), "x", some 10, some 100, none⟩).size ∧
      angle_ok (load_text_item ⟨(0, 0), "x", some 10, some 100, none⟩).angle) := by
  obtain ⟨hcreate, -, -, -, -, hload⟩ := text_invariants_per_operation (0, 0) "hi"
    ⟨"e", false, (0, 0, 1, 1), 18⟩ ⟨(0, 0), 0, 0⟩ (create_text_item (0, 0) "hi")
    0 0 ⟨(0, 0), "x", some 10, some 100, none⟩
  refine ⟨hcreate, hload ?_ ?_⟩
  · simp only [Option.getD_some]
    unfold size_ok
    norm_num
  · simp only [Option.getD_some]
    unfold angle_ok
    norm_num

/-- The font-size formula exactly as the claim words it: per-axis ratios are
|cursor distance from box center| / |initial half-extent|, edge handles use
one axis, corner handles the average (or the max with the proportional
modifier), the ratio is clamped to [0.2, 8.0], and the new size is
clamp(initialSize × ratio, 8, 512) — with no pixel floor on the divisor and
no integer truncation. -/
def text_scale_claim_size (t : TextScaleState) (px py : ℝ) : ℝ :=
  let x0 := t.start_bbox.1
  let y0 := t.start_bbox.2.1
  let x1 := t.start_bbox.2.2.1
  let y1 := t.start_bbox.2.2.2
  let cx := (x0 + x1) / 2
  let cy := (y0 + y1) / 2
  let dxr := |px - cx| / |x1 - cx|
  let dyr := |py - cy| / |y1 - cy|
  let ratio := if t.handle = "n" ∨ t.handle = "s" then dyr
    else if t.handle = "e" ∨ t.handle = "w" then dxr
    else if t.keep_ratio then max dxr dyr else (dxr + dyr) / 2
  clamp ((t.start_size : ℝ) * clamp ratio 0.2 8.0) 8 512

/-- C5 counterexample: dragging the e edge handle of an 18pt text with
start box (-2,-2,2,2) to px = 0.9 gives ratio 0.45 and the code truncates
18 × 0.45 = 8.1 to the integer size 8, while the claimed formula yields
8.1; with start box (-1/2,-1/2,1/2,1/2) and px = 1 the code divides by
max(1, 1/2) = 1 (size stays 18) while the claimed divisor |1/2| yields
ratio 2 and size 36. -/
theorem text_scale_claim_false :
    ((update_text_scale ⟨"e", false, (-2, -2, 2, 2), 18⟩
        (create_text_item (0, 0) "x") 0.9 0).size : ℝ) ≠
      text_scale_claim_size ⟨"e", false, (-2, -2, 2, 2), 18⟩ 0.9 0 ∧
    ((update_text_scale ⟨"e", false, (-1/2, -1/2, 1/2, 1/2), 18⟩
        (create_text_item (0, 0) "x") 1 0).size : ℝ) ≠
      text_scale_claim_size ⟨"e", false, (-1/2, -1/2, 1/2, 1/2), 18⟩ 1 0 := by
  have hns : (("e" : String) = "n" ∨ ("e" : String) = "s") = False :=
    eq_false (by decide)
  have hew : (("e" : String) = "e" ∨ ("e" : String) = "w") = True :=
    eq_true (by decide)
  constructor
  · have hcode : (update_text_scale ⟨"e", false, (-2, -2, 2, 2), 18⟩
        (create_text_item (0, 0) "x") 0.9 0).size = 8 := by
      have hratio : text_scale_ratio ⟨"e", false, (-2, -2, 2, 2), 18⟩ 0.9 0
          = 0.45 := by
        simp only [text_scale_ratio, hns, hew, if_false, if_true]
        rw [abs_eq_max_neg]
        norm_num
      have hclamp : clamp 0.45 0.2 8.0 = 0.45 := by
        unfold clamp
        norm_num
      have hfloor : pyInt (((18 : ℤ) : ℝ) * 0.45) = 8 := by
        unfold pyInt
        rw [if_pos (by norm_num)]
        rw [show (((18 : ℤ) : ℝ) * 0.45) = 8.1 by norm_num]
        rw [Int.floor_eq_iff]
        norm_num
      simp only [update_text_scale, hratio, hclamp]
      rw [hfloor]
      unfold clampInt
      norm_num
    have hclaim : text_scale_claim_size ⟨"e", false, (-2, -2, 2, 2), 18⟩ 0.9 0
        = 8.1 := by
      simp only [text_scale_claim_size, hns, hew, if_false, if_true, clamp]
      simp only [abs_eq_max_neg]
      norm_num
    rw [hcode, hclaim]
    norm_num
  · have hcode : (update_text_scale ⟨"e", false, (-1/2, -1/2, 1/2, 1/2), 18⟩
        (create_text_item (0, 0) "x") 1 0).size = 18 := by
      have hratio : text_scale_ratio ⟨"e", false, (-1/2, -1/2, 1/2, 1/2), 18⟩ 1 0
          = 1 := by
        simp only [text_scale_ratio, hns, hew, if_false, if_true]
        rw [abs_eq_max_neg]
        norm_num
      have hclamp : clamp 1 0.2 8.0 = 1 := by
        unfold clamp
        norm_num
      have hfloor : pyInt (((18 : ℤ) : ℝ) * 1) = 18 := by
        unfold pyInt
        rw [if_pos (by norm_num)]
        rw [show (((18 : ℤ) : ℝ) * 1) = ((18 : ℤ) : ℝ) by ring]
        exact Int.floor_intCast 18
      simp only [update_text_scale, hratio, hclamp]
      rw [hfloor]
      unfold clampInt
      norm_num
    have hclaim : text_scale_claim_size ⟨"e", false, (-1/2, -1/2, 1/2, 1/2), 18⟩ 1 0
        = 36 := by
      simp only [text_scale_claim_size, hns, hew, if_false, if_true, clamp]
      simp only [abs_eq_max_neg]
      norm_num
    rw [hcode, hclaim]
    norm_num

/-- C5 (amended): a ScaleText update derives each per-axis ratio as
|cursor distance from box center| divided by max(1 pixel, the initial
half-extent) on that axis; n/s/e/w handles use the single matching axis,
any other handle tag uses the max of the two ratios when the proportional
modifier is held and their average otherwise; the ratio is clamped to
[0.2, 8.0] and the new font size is clamp(int(initialSize × ratio), 8, 512)
(integer truncation), hence always within [8, 512]; the angle is untouched. -/
theorem text_scale_update_characterization (t : TextScaleState) (it : Item)
    (px py : ℝ) :
    (update_text_scale t it px py).size =
      clampInt (pyInt ((t.start_size : ℝ) *
        clamp (let cx := (t.start_bbox.1 + t.start_bbox.2.2.1) / 2
               let cy := (t.start_bbox.2.1 + t.start_bbox.2.2.2) / 2
               let dxr := |px - cx| / max 1 (t.start_bbox.2.2.1 - cx)
               let dyr := |py - cy| / max 1 (t.start_bbox.2.2.2 - cy)
               if t.handle = "n" ∨ t.handle = "s" then dyr
               else if t.handle = "e" ∨ t.handle = "w" then dxr
               else if t.keep_ratio then max dxr dyr
               else (dxr + dyr) / 2) 0.2 8.0)) 8 512 ∧
    size_ok (update_text_scale t it px py).size ∧
    (update_text_scale t it px py).angle = it.angle ∧
    (update_text_scale t it px py).p = it.p := by
  refine ⟨rfl, ?_, rfl, rfl⟩
  unfold update_text_scale size_ok
  exact clampInt_bounds _

/-- Helper: the group-move loop preserves the scene length. -/
lemma apply_group_move_length (dx dy : ℝ) (sel : List ℕ) :
    ∀ (n : ℕ) (l : List Item), (apply_group_move dx dy sel n l).length = l.length := by
  intro n l
  induction l generalizing n with
  | nil => simp [apply_group_move]
  | cons x xs ih => simp [apply_group_move, ih]

/-- Helper: elementwise description of the group-move loop. -/
lemma apply_group_move_getElem (dx dy : ℝ) (sel : List ℕ) :
    ∀ (l : List Item) (n i : ℕ),
      (apply_group_move dx dy sel n l)[i]? =
        (l[i]?).map (fun jt => if (n + i) ∈ sel then move_item jt dx dy else jt) := by
  intro l
  induction l with
  | nil => intro n i; simp [apply_group_move]
  | cons x xs ih =>
    intro n i
    cases i with
    | zero => simp [apply_group_move]
    | succ j =>
      simp only [apply_group_move, List.getElem?_cons_succ]
      rw [ih (n + 1) j]
      simp only [Nat.add_succ, Nat.succ_add]

/-- C9: a MoveSingle or MoveGroup pointer-move update translates the item
(or each selected item) by exactly the difference between the current
(snapped, when enabled) world point and the stored anchor, and replaces the
anchor by the current world point — the delta is incremental from the last
observed point, not cumulative from session start. -/
theorem move_updates_incremental (anchor : Point) (it : Item)
    (selIdx : List ℕ) (items : List Item) (zoom : ℝ) (origin : Point)
    (px py : ℝ) (snapEnabled : Bool) :
    let cur := current_world_point zoom origin px py snapEnabled
    let dx := cur.1 - anchor.1
    let dy := cur.2 - anchor.2
    ((continue_move_any anchor it zoom origin px py snapEnabled).2 = cur ∧
      (continue_move_any anchor it zoom origin px py snapEnabled).1 =
        move_item it dx dy ∧
      ((it.kind = "wall" ∨ it.kind = "door" ∨ it.kind = "window" ∨
          it.kind = "room") →
        (move_item it dx dy).a = (it.a.1 + dx, it.a.2 + dy) ∧
        (move_item it dx dy).b = (it.b.1 + dx, it.b.2 + dy)) ∧
      (it.kind = "text" →
        (move_item it dx dy).p = (it.p.1 + dx, it.p.2 + dy))) ∧
    ((continue_move_group anchor selIdx items zoom origin px py snapEnabled).2
        = cur ∧
      (continue_move_group anchor selIdx items zoom origin px py
          snapEnabled).1.length = items.length ∧
      ∀ (i : ℕ) (jt : Item), items[i]? = some jt →
        (continue_move_group anchor selIdx items zoom origin px py
            snapEnabled).1[i]? =
          some (if i ∈ selIdx then move_item jt dx dy else jt)) := by
  intro cur dx dy
  refine ⟨⟨rfl, rfl, ?_, ?_⟩, rfl, ?_, ?_⟩
  · intro h
    rcases h with h | h | h | h
    · unfold move_item
      rw [if_pos (Or.inl h)]
      exact ⟨rfl, rfl⟩
    · unfold move_item
      rw [if_pos (Or.inr (Or.inl h))]
      exact ⟨rfl, rfl⟩
    · unfold move_item
      rw [if_pos (Or.inr (Or.inr h))]
      exact ⟨rfl, rfl⟩
    · unfold move_item
      rw [h]
      rw [if_neg (by decide), if_pos rfl]
      exact ⟨rfl, rfl⟩
  · intro h
    unfold move_item
    rw [h]
    rw [if_neg (by decide), if_neg (by decide), if_pos rfl]
  · exact apply_group_move_length _ _ _ _ _
  · intro i jt hjt
    show (apply_group_move dx dy selIdx 0 items)[i]? = _
    rw [apply_group_move_getElem, hjt]
    simp

/-- Witness for C9: with anchor (0,0), zoom 1, origin (0,0), cursor at
pixel (64,32) and snapping off, the current world point is (2,1); the
moved wall's endpoint a lands at (2,1) and the group update moves the lone
selected wall identically. -/
theorem move_updates_incremental_witness :
    (move_item (mk_seg_item "wall" (0, 0) (1, 0)) 2 1).a = (2, 1) ∧
    (continue_move_group (0, 0) [0] [mk_seg_item "wall" (0, 0) (1, 0)] 1
        (0, 0) 64 32 false).1[0]? =
      some (move_item (mk_seg_item "wall" (0, 0) (1, 0)) 2 1) := by
  have hcur : current_world_point 1 (0, 0) 64 32 false = (2, 1) := by
    unfold current_world_point canvas_to_world snap_world grid_px GRID_SIZE_PX
    norm_num
  obtain ⟨⟨-, -, hseg, -⟩, -, -, hget⟩ :=
    move_updates_incremental (0, 0) (mk_seg_item "wall" (0, 0) (1, 0)) [0]
      [mk_seg_item "wall" (0, 0) (1, 0)] 1 (0, 0) 64 32 false
  constructor
  · have h := (hseg (Or.inl rfl)).1
    rw [hcur] at h
    simpa [mk_seg_item] using h
  · have h := hget 0 (mk_seg_item "wall" (0, 0) (1, 0)) (by simp)
    rw [hcur] at h
    simpa using h

/-- C6: whenever some text item's cached canvas bounding box contains the
point, _hit_test returns the first such text item in scan order — for every
state of the running best candidate and best distance, so in particular
even when a wall/door/window/room candidate scanned earlier lies strictly
closer within the 8-pixel tolerance. -/
theorem hit_test_returns_first_text (zoom : ℝ) (origin : Point) (px py : ℝ)
    (items : List Item) (it : Item)
    (h : firstTextHit px py items = some it) :
    (∀ (best : Option Item) (bestd : ℝ),
      hit_test_go zoom origin px py best bestd items = some it) ∧
    hit_test zoom origin px py items = some it := by
  have main : ∀ (l : List Item), firstTextHit px py l = some it →
      ∀ (best : Option Item) (bestd : ℝ),
        hit_test_go zoom origin px py best bestd l = some it := by
    intro l
    induction l with
    | nil => intro hf; simp [firstTextHit] at hf
    | cons jt rest ih =>
      intro hf best bestd
      by_cases ht : is_text_hit jt px py
      · have hjt : jt = it := by
          simp only [firstTextHit, if_pos ht] at hf
          exact Option.some.inj hf
        obtain ⟨hk, bb, hbb, hcont⟩ := ht
        have hk1 : ¬(jt.kind = "wall" ∨ jt.kind = "door" ∨ jt.kind = "window") := by
          rw [hk]; decide
        have hk2 : ¬(jt.kind = "room") := by rw [hk]; decide
        simp only [hit_test_go, if_neg hk1, if_neg hk2, if_pos hk, hbb,
          if_pos hcont]
        rw [hjt]
      · have hf' : firstTextHit px py rest = some it := by
          simp only [firstTextHit, if_neg ht] at hf
          exact hf
        by_cases h1 : jt.kind = "wall" ∨ jt.kind = "door" ∨ jt.kind = "window"
        · simp only [hit_test_go, if_pos h1]
          split
          · exact ih hf' _ _
          · exact ih hf' _ _
        · by_cases h2 : jt.kind = "room"
          · simp only [hit_test_go, if_neg h1, if_pos h2]
            split
            · split
              · exact ih hf' _ _
              · exact ih hf' _ _
            · exact ih hf' _ _
          · by_cases h3 : jt.kind = "text"
            · simp only [hit_test_go, if_neg h1, if_neg h2, if_pos h3]
              cases hbb : jt.bboxCanvas with
              | none => exact ih hf' _ _
              | some bb =>
                have hnc : ¬ bbox_contains bb px py := fun hc =>
                  ht ⟨h3, bb, hbb, hc⟩
                simp only [if_neg hnc]
                exact ih hf' _ _
            · simp only [hit_test_go, if_neg h1, if_neg h2, if_neg h3]
              exact ih hf' _ _
  exact ⟨main items h, main items h none 1e9⟩

/-- Witness for C6: a scene holding a wall that passes exactly through the
probed pixel (distance 0) followed by a text item whose cached box contains
the pixel still resolves to the text item. -/
theorem hit_test_returns_first_text_witness :
    hit_test 1 (0, 0) 160 0 [mk_seg_item "wall" (0, 0) (10, 0),
      { kind := "text", p := (5, 0), bboxCanvas := some (100, -5, 200, 5) }] =
      some { kind := "text", p := (5, 0), bboxCanvas := some (100, -5, 200, 5) } := by
  have hw : ¬ is_text_hit (mk_seg_item "wall" (0, 0) (10, 0)) 160 0 := by
    intro hh
    exact absurd hh.1 (by decide)
  have htx : is_text_hit
      ({ kind := "text", p := (5, 0), bboxCanvas := some (100, -5, 200, 5) } : Item)
      160 0 :=
    ⟨rfl, (100, -5, 200, 5), rfl, by norm_num [bbox_contains]⟩
  refine (hit_test_returns_first_text 1 (0, 0) 160 0 _ _ ?_).2
  simp only [firstTextHit, if_neg hw, if_pos htx]

/-- Helper: with snapping off, the rotate update puts the endpoints at
center ∓ (L/2)·(cos θ, sin θ) with L = max(1e-6, stored length) and θ the
cursor angle delta in radians. -/
lemma update_segment_rotate_endpoints (t : SegRotateState) (it : Item)
    (zoom : ℝ) (origin : Point) (px py : ℝ) :
    (update_segment_rotate t it zoom origin px py false).a =
      (t.center.1 - (max 1e-6 t.len / 2) *
          Real.cos (radians (screen_angle
            (world_to_canvas zoom origin t.center.1 t.center.2).1
            (world_to_canvas zoom origin t.center.1 t.center.2).2 px py -
            t.start_cursor)),
        t.center.2 - (max 1e-6 t.len / 2) *
          Real.sin (radians (screen_angle
            (world_to_canvas zoom origin t.center.1 t.center.2).1
            (world_to_canvas zoom origin t.center.1 t.center.2).2 px py -
            t.start_cursor))) ∧
    (update_segment_rotate t it zoom origin px py false).b =
      (t.center.1 + (max 1e-6 t.len / 2) *
          Real.cos (radians (screen_angle
            (world_to_canvas zoom origin t.center.1 t.center.2).1
            (world_to_canvas zoom origin t.center.1 t.center.2).2 px py -
            t.start_cursor)),
        t.center.2 + (max 1e-6 t.len / 2) *
          Real.sin (radians (screen_angle
            (world_to_canvas zoom origin t.center.1 t.center.2).1
            (world_to_canvas zoom origin t.center.1 t.center.2).2 px py -
            t.start_cursor))) := by
  unfold update_segment_rotate
  simp

/-- Helper: L = max 1e-6 t.len is positive. -/
lemma seg_rotate_len_pos (t : SegRotateState) : 0 < max 1e-6 t.len :=
  lt_of_lt_of_le (by norm_num) (le_max_left _ _)

/-- Helper: with snapping off, both rotated endpoints lie at distance
max(1e-6, stored length)/2 from the stored center. -/
lemma update_segment_rotate_dist (t : SegRotateState) (it : Item)
    (zoom : ℝ) (origin : Point) (px py : ℝ) :
    hypot ((update_segment_rotate t it zoom origin px py false).a.1 - t.center.1)
        ((update_segment_rotate t it zoom origin px py false).a.2 - t.center.2) =
      max 1e-6 t.len / 2 ∧
    hypot ((update_segment_rotate t it zoom origin px py false).b.1 - t.center.1)
        ((update_segment_rotate t it zoom origin px py false).b.2 - t.center.2) =
      max 1e-6 t.len / 2 := by
  obtain ⟨ha, hb⟩ := update_segment_rotate_endpoints t it zoom origin px py
  set L := max 1e-6 t.len with hL
  set θ := radians (screen_angle
    (world_to_canvas zoom origin t.center.1 t.center.2).1
    (world_to_canvas zoom origin t.center.1 t.center.2).2 px py -
    t.start_cursor) with hθ
  have hpos : 0 < L := by rw [hL]; exact seg_rotate_len_pos t
  constructor
  · simp only [ha]
    rw [show t.center.1 - L / 2 * Real.cos θ - t.center.1
          = (-(L / 2)) * Real.cos θ by ring,
        show t.center.2 - L / 2 * Real.sin θ - t.center.2
          = (-(L / 2)) * Real.sin θ by ring,
        hypot_rcos_rsin, abs_neg, abs_of_pos (half_pos hpos)]
  · simp only [hb]
    rw [show t.center.1 + L / 2 * Real.cos θ - t.center.1
          = (L / 2) * Real.cos θ by ring,
        show t.center.2 + L / 2 * Real.sin θ - t.center.2
          = (L / 2) * Real.sin θ by ring,
        hypot_rcos_rsin, abs_of_pos (half_pos hpos)]

/-- C3 counterexample: on a zero-length segment seg_normal returns the zero
vector (norm 0, not a unit vector), and the rotate update's radius fallback
is 1e-6, so the rotated endpoint sits at distance 5e-7 from the center, not
at the half-unit distance a unit-length fallback would give. -/
theorem degenerate_unit_fallback_claim_false :
    hypot (seg_normal 0 0 0 0).1 (seg_normal 0 0 0 0).2 ≠ 1 ∧
    hypot ((update_segment_rotate
        (begin_segment_rotate (mk_seg_item "wall" (0, 0) (0, 0)) 1 (0, 0) 100 0)
        (mk_seg_item "wall" (0, 0) (0, 0)) 1 (0, 0) 100 0 false).b.1 -
        (begin_segment_rotate (mk_seg_item "wall" (0, 0) (0, 0)) 1 (0, 0) 100 0).center.1)
      ((update_segment_rotate
        (begin_segment_rotate (mk_seg_item "wall" (0, 0) (0, 0)) 1 (0, 0) 100 0)
        (mk_seg_item "wall" (0, 0) (0, 0)) 1 (0, 0) 100 0 false).b.2 -
        (begin_segment_rotate (mk_seg_item "wall" (0, 0) (0, 0)) 1 (0, 0) 100 0).center.2)
      ≠ 1 / 2 := by
  constructor
  · have hdiv : seg_normal_div 0 0 0 0 = 1 := by
      unfold seg_normal_div
      rw [if_pos (by norm_num [hypot_zero_zero])]
    have hsn : seg_normal 0 0 0 0 = (0, 0) := by
      unfold seg_normal
      rw [hdiv]
      norm_num
    rw [hsn]
    norm_num [hypot_zero_zero]
  · have hlen : (begin_segment_rotate (mk_seg_item "wall" (0, 0) (0, 0)) 1
        (0, 0) 100 0).len = 0 := by
      norm_num [begin_segment_rotate, mk_seg_item, hypot_zero_zero]
    have hd := (update_segment_rotate_dist
      (begin_segment_rotate (mk_seg_item "wall" (0, 0) (0, 0)) 1 (0, 0) 100 0)
      (mk_seg_item "wall" (0, 0) (0, 0)) 1 (0, 0) 100 0).2
    rw [hlen] at hd
    rw [hd]
    norm_num

/-- C3 (amended): seg_normal's divisor is never zero — it falls back to 1
for a zero-length segment, where the function returns the zero vector (a
unit vector only for nondegenerate input); the RotateSegment update never
divides at all and clamps its radius below by 1e-6 (not by a unit length),
so a zero-length segment rotates to endpoints at distance 5e-7 from the
center; neither operation faults. -/
theorem degenerate_fallbacks (x1 y1 x2 y2 x y : ℝ) (it : Item) (zoom : ℝ)
    (origin : Point) (px0 py0 px py : ℝ) :
    seg_normal_div x1 y1 x2 y2 ≠ 0 ∧
    (seg_normal_div x y x y = 1 ∧ seg_normal x y x y = (0, 0)) ∧
    (hypot (x2 - x1) (y2 - y1) ≠ 0 →
      hypot (seg_normal x1 y1 x2 y2).1 (seg_normal x1 y1 x2 y2).2 = 1) ∧
    (it.a = it.b →
      hypot ((update_segment_rotate (begin_segment_rotate it zoom origin px0 py0)
            it zoom origin px py false).a.1 -
          (begin_segment_rotate it zoom origin px0 py0).center.1)
        ((update_segment_rotate (begin_segment_rotate it zoom origin px0 py0)
            it zoom origin px py false).a.2 -
          (begin_segment_rotate it zoom origin px0 py0).center.2) = 1e-6 / 2) := by
  refine ⟨?_, ⟨?_, ?_⟩, ?_, ?_⟩
  · unfold seg_normal_div
    by_cases h : hypot (x2 - x1) (y2 - y1) = 0
    · rw [if_pos h]
      norm_num
    · rw [if_neg h]
      exact h
  · unfold seg_normal_div
    rw [if_pos (by norm_num [hypot_zero_zero])]
  · unfold seg_normal seg_normal_div
    rw [if_pos (by norm_num [hypot_zero_zero])]
    norm_num
  · intro hL
    have hnn : (0 : ℝ) ≤ (x2 - x1) ^ 2 + (y2 - y1) ^ 2 := by positivity
    have hne : (x2 - x1) ^ 2 + (y2 - y1) ^ 2 ≠ 0 := by
      intro h0
      apply hL
      unfold hypot
      rw [h0, Real.sqrt_zero]
    have hdiv : seg_normal_div x1 y1 x2 y2 = hypot (x2 - x1) (y2 - y1) := by
      unfold seg_normal_div
      rw [if_neg hL]
    show hypot (-(y2 - y1) / seg_normal_div x1 y1 x2 y2)
        ((x2 - x1) / seg_normal_div x1 y1 x2 y2) = 1
    rw [hdiv]
    unfold hypot
    rw [show (-(y2 - y1) / Real.sqrt ((x2 - x1) ^ 2 + (y2 - y1) ^ 2)) ^ 2 +
          ((x2 - x1) / Real.sqrt ((x2 - x1) ^ 2 + (y2 - y1) ^ 2)) ^ 2 =
        ((x2 - x1) ^ 2 + (y2 - y1) ^ 2) /
          Real.sqrt ((x2 - x1) ^ 2 + (y2 - y1) ^ 2) ^ 2 by ring,
      Real.sq_sqrt hnn, div_self hne, Real.sqrt_one]
  · intro hab
    have hlen : (begin_segment_rotate it zoom origin px0 py0).len = 0 := by
      show hypot (it.b.1 - it.a.1) (it.b.2 - it.a.2) = 0
      rw [hab]
      norm_num [hypot_zero_zero]
    have hd := (update_segment_rotate_dist
      (begin_segment_rotate it zoom origin px0 py0) it zoom origin px py).1
    rw [hlen] at hd
    rw [hd]
    norm_num

/-- Witness for C3: a 3-4-5 segment's normal is a unit vector, and the
degenerate fallback returns the zero vector without faulting. -/
theorem degenerate_fallbacks_witness :
    hypot (seg_normal 0 0 3 4).1 (seg_normal 0 0 3 4).2 = 1 ∧
    seg_normal 0 0 0 0 = (0, 0) := by
  obtain ⟨-, ⟨-, h0⟩, hunit, -⟩ := degenerate_fallbacks 0 0 3 4 0 0
    (mk_seg_item "wall" (0, 0) (0, 0)) 1 (0, 0) 0 0 0 0
  refine ⟨hunit ?_, h0⟩
  have h5 : hypot (3 - 0 : ℝ) (4 - 0 : ℝ) = 5 := by
    unfold hypot
    rw [show ((3 : ℝ) - 0) ^ 2 + ((4 : ℝ) - 0) ^ 2 = 25 by norm_num,
        show (25 : ℝ) = 5 ^ 2 by norm_num, Real.sqrt_sq (by norm_num)]
  rw [h5]
  norm_num

/-- The RotateSegment update as the claim words it: the new endpoints are
the original midpoint ∓ (original length / 2) along the initial direction
rotated by the cursor angle delta (equivalently, along the direction whose
angle is the initial direction angle plus the delta); s = ±1 leaves the
assignment of the two endpoints free. -/
def rotate_segment_claimed (a b : Point) (zoom : ℝ) (origin : Point)
    (px0 py0 px py : ℝ) : Prop :=
  let it := mk_seg_item "wall" a b
  let st := begin_segment_rotate it zoom origin px0 py0
  let it2 := update_segment_rotate st it zoom origin px py false
  let len := hypot (b.1 - a.1) (b.2 - a.2)
  let mid : Point := ((a.1 + b.1) / 2, (a.2 + b.2) / 2)
  let cc := world_to_canvas zoom origin mid.1 mid.2
  let dAng := radians (screen_angle cc.1 cc.2 px py - st.start_cursor)
  let u : Point := ((b.1 - a.1) / len, (b.2 - a.2) / len)
  let dir : Point := (u.1 * Real.cos dAng + u.2 * Real.sin dAng,
    -u.1 * Real.sin dAng + u.2 * Real.cos dAng)
  ∃ s : ℝ, (s = 1 ∨ s = -1) ∧
    it2.a = (mid.1 - s * (len / 2) * dir.1, mid.2 - s * (len / 2) * dir.2) ∧
    it2.b = (mid.1 + s * (len / 2) * dir.1, mid.2 + s * (len / 2) * dir.2)

/-- C1 counterexample: grab the rotate handle of the vertical wall
(0,0)–(0,5) and keep the cursor angle delta at 0 (same cursor position):
the claim would leave the endpoints on the original vertical direction, but
the code sets the segment's absolute direction to the delta alone, making
it horizontal: endpoint a lands at (-5/2, 5/2). -/
theorem rotate_segment_claim_false :
    ¬ rotate_segment_claimed (0, 0) (0, 5) 1 (0, 0) 100 80 100 80 := by
  intro h
  obtain ⟨s, -, ha, -⟩ := h
  have h25 : Real.sqrt 25 = 5 := by
    rw [show (25 : ℝ) = 5 ^ 2 by norm_num, Real.sqrt_sq (by norm_num)]
  have hc : (begin_segment_rotate (mk_seg_item "wall" (0, 0) (0, 5)) 1 (0, 0)
      100 80).center = (0, 5 / 2) := by
    norm_num [begin_segment_rotate, mk_seg_item]
  have hlen : (begin_segment_rotate (mk_seg_item "wall" (0, 0) (0, 5)) 1 (0, 0)
      100 80).len = 5 := by
    norm_num [begin_segment_rotate, mk_seg_item, hypot, h25]
  have hsc : (begin_segment_rotate (mk_seg_item "wall" (0, 0) (0, 5)) 1 (0, 0)
      100 80).start_cursor = screen_angle 0 80 100 80 := by
    norm_num [begin_segment_rotate, mk_seg_item, world_to_canvas, grid_px,
      GRID_SIZE_PX]
  obtain ⟨hA, -⟩ := update_segment_rotate_endpoints
    (begin_segment_rotate (mk_seg_item "wall" (0, 0) (0, 5)) 1 (0, 0) 100 80)
    (mk_seg_item "wall" (0, 0) (0, 5)) 1 (0, 0) 100 80
  rw [hc, hlen, hsc] at hA
  norm_num [world_to_canvas, grid_px, GRID_SIZE_PX, radians, Real.cos_zero,
    Real.sin_zero] at hA
  have h1 := congrArg Prod.fst ha
  rw [hsc] at h1
  norm_num [world_to_canvas, grid_px, GRID_SIZE_PX, radians, Real.cos_zero,
    Real.sin_zero, hypot, h25] at h1
  rw [hA] at h1
  norm_num at h1

/-- C1 (amended): with snapping off, a RotateSegment update sets the
segment's endpoints to the original midpoint ∓ (L/2)·(cos θ, sin θ), where
L = max(1e-6, original length) and θ is the cursor angle delta since
session start alone — the initial direction angle is discarded, so the new
absolute direction equals the delta; both endpoints remain at distance L/2
from the original midpoint (2.5 for a length-5 wall), and the midpoint is
preserved, but the 90°-scenario perpendicularity holds only for initially
horizontal walls. -/
theorem rotate_segment_update_characterization (it : Item) (zoom : ℝ)
    (origin : Point) (px0 py0 px py : ℝ) :
    let st := begin_segment_rotate it zoom origin px0 py0
    let it2 := update_segment_rotate st it zoom origin px py false
    let L := max 1e-6 st.len
    let θ := radians (screen_angle
      (world_to_canvas zoom origin st.center.1 st.center.2).1
      (world_to_canvas zoom origin st.center.1 st.center.2).2 px py -
      st.start_cursor)
    st.center = ((it.a.1 + it.b.1) / 2, (it.a.2 + it.b.2) / 2) ∧
    st.len = hypot (it.b.1 - it.a.1) (it.b.2 - it.a.2) ∧
    it2.a = (st.center.1 - L / 2 * Real.cos θ, st.center.2 - L / 2 * Real.sin θ) ∧
    it2.b = (st.center.1 + L / 2 * Real.cos θ, st.center.2 + L / 2 * Real.sin θ) ∧
    it2.b.1 - it2.a.1 = L * Real.cos θ ∧
    it2.b.2 - it2.a.2 = L * Real.sin θ ∧
    hypot (it2.a.1 - st.center.1) (it2.a.2 - st.center.2) = L / 2 ∧
    hypot (it2.b.1 - st.center.1) (it2.b.2 - st.center.2) = L / 2 ∧
    it2.a.1 + it2.b.1 = st.center.1 * 2 ∧
    it2.a.2 + it2.b.2 = st.center.2 * 2 := by
  intro st it2 L θ
  have hit2 : it2 = update_segment_rotate st it zoom origin px py false := rfl
  have hL : L = max 1e-6 st.len := rfl
  have hθ : θ = radians (screen_angle
      (world_to_canvas zoom origin st.center.1 st.center.2).1
      (world_to_canvas zoom origin st.center.1 st.center.2).2 px py -
      st.start_cursor) := rfl
  obtain ⟨ha, hb⟩ := update_segment_rotate_endpoints st it zoom origin px py
  obtain ⟨hda, hdb⟩ := update_segment_rotate_dist st it zoom origin px py
  refine ⟨rfl, rfl, ?_, ?_, ?_, ?_, ?_, ?_, ?_, ?_⟩
  · rw [hit2, ha]
  · rw [hit2, hb]
  · rw [hit2]
    simp only [ha, hb]
    ring
  · rw [hit2]
    simp only [ha, hb]
    ring
  · rw [hit2]
    exact hda
  · rw [hit2]
    exact hdb
  · rw [hit2]
    simp only [ha, hb]
    ring
  · rw [hit2]
    simp only [ha, hb]
    ring

end FloorPlan
